import Mathlib

/-!
Verification of `src/nativecode/membarrier.c`.

The repository contains a single native function,
`Java_nativecode_MemBarrier_flushAllThreads`, which issues
`syscall(SYS_membarrier, MEMBARRIER_CMD_SHARED, 0)` and returns the raw
syscall value on success, or `-errno` when the syscall reports failure by
returning `-1`.

The embedding models one invocation of the underlying system call by the
pair of the raw return value and the value of `errno` observed after the
call (`SyscallOutcome`).  The C function becomes a pure function of that
outcome; a traced variant records the syscall invocations the function
performs, and a behaviour variant records how control leaves the function
(normal return, exception, or process abort), mirroring the fact that the
C body consists only of `return` statements.
-/

namespace MemBarrier

/-- The outcome of one invocation of the underlying system call, as seen by
the C caller: the raw return value stored into `int ret`, and the value of
`errno` after the call. -/
structure SyscallOutcome where
  ret : Int
  errno : Int
  deriving DecidableEq, Repr

/-- `MEMBARRIER_CMD_SHARED` from `<linux/membarrier.h>`: bit 0, value 1. -/
def MEMBARRIER_CMD_SHARED : Int := 1

/-- Shallow embedding of `Java_nativecode_MemBarrier_flushAllThreads`
(`src/nativecode/membarrier.c`, lines 8-14):

    int ret = syscall(SYS_membarrier, MEMBARRIER_CMD_SHARED, 0);
    if (ret == -1) {
        return -errno;
    }
    return ret;

The function is a pure function of the syscall's outcome. -/
def flushAllThreads (o : SyscallOutcome) : Int :=
  if o.ret = -1 then -o.errno else o.ret

/-- One recorded invocation of the membarrier system call: the command
argument and the flags argument passed to `syscall(SYS_membarrier, ...)`. -/
structure SyscallCall where
  cmd : Int
  flags : Int
  deriving DecidableEq, Repr

/-- Embedding of the same function with an explicit trace of the system
calls it issues.  `kernel` maps the `(cmd, flags)` arguments of a
membarrier invocation to its outcome; the function issues exactly the calls
written in the C body (line 9: a single `syscall(SYS_membarrier,
MEMBARRIER_CMD_SHARED, 0)`). -/
def flushAllThreadsTraced (kernel : Int → Int → SyscallOutcome) :
    Int × List SyscallCall :=
  (flushAllThreads (kernel MEMBARRIER_CMD_SHARED 0),
   [⟨MEMBARRIER_CMD_SHARED, 0⟩])

/-- How control leaves the native function: a normal `return` carrying a
value, a raised language-level exception, or a process abort.  The C body
contains only `return` statements, which the embedding mirrors. -/
inductive CBehavior where
  | ret (v : Int)
  | exception
  | processAbort
  deriving DecidableEq, Repr

/-- The control-flow behaviour of `Java_nativecode_MemBarrier_flushAllThreads`:
both branches of the `if` on line 10 end in a `return` statement (lines 11
and 13); there is no `throw`, `abort`, or `exit` anywhere in the body. -/
def flushAllThreadsBeh (o : SyscallOutcome) : CBehavior :=
  if o.ret = -1 then CBehavior.ret (-o.errno) else CBehavior.ret o.ret

/-- A sequence of calls of the function, one syscall outcome per call.  The
component keeps no state between calls (the C file declares no global or
static variable), so a run is just the list of per-call results. -/
def runCalls (outs : List SyscallOutcome) : List Int :=
  outs.map flushAllThreads

/-- Smallest value of the C type `jint` (32-bit signed integer). -/
def int32Min : Int := -(2 ^ 31)

/-- Largest value of the C type `jint` (32-bit signed integer). -/
def int32Max : Int := 2 ^ 31 - 1

/-- Well-formedness of a syscall outcome at the C boundary: the raw return
value is stored into the C local `int ret`, so it lies in 32-bit signed
range, and `errno` is a non-negative `int` value. -/
def SyscallOutcome.wf (o : SyscallOutcome) : Prop :=
  int32Min ≤ o.ret ∧ o.ret ≤ int32Max ∧ 0 ≤ o.errno ∧ o.errno ≤ int32Max

instance (o : SyscallOutcome) : Decidable o.wf := by
  unfold SyscallOutcome.wf
  infer_instance

end MemBarrier

namespace MemBarrier

/-- C1: if the underlying membarrier system call fails (it returns `-1`
and reports a positive error number in `errno`), `flushAllThreads` returns
the arithmetic negation of that error number — a strictly negative integer
whose absolute value equals the reported errno — rather than raising an
exception or terminating the process. -/
theorem flushAllThreads_failure_returns_negated_errno
    (o : SyscallOutcome) (hret : o.ret = -1) (herr : 1 ≤ o.errno) :
    flushAllThreads o = -o.errno ∧
    flushAllThreads o < 0 ∧
    (flushAllThreads o).natAbs = o.errno.natAbs ∧
    flushAllThreadsBeh o = CBehavior.ret (-o.errno) := by
  refine ⟨by simp [flushAllThreads, hret], ?_,
    by simp [flushAllThreads, hret], by simp [flushAllThreadsBeh, hret]⟩
  simp [flushAllThreads, hret]
  omega

/-- Witness for C1 at the concrete outcome `ret = -1`, `errno = 38`
(`ENOSYS` on Linux): the result is `-38`. -/
theorem flushAllThreads_failure_returns_negated_errno_witness :
    flushAllThreads ⟨-1, 38⟩ = -(38 : Int) ∧
    flushAllThreads ⟨-1, 38⟩ < 0 ∧
    (flushAllThreads ⟨-1, 38⟩).natAbs = (38 : Int).natAbs ∧
    flushAllThreadsBeh ⟨-1, 38⟩ = CBehavior.ret (-(38 : Int)) :=
  flushAllThreads_failure_returns_negated_errno ⟨-1, 38⟩ rfl (by decide)

/-- C2: if the underlying membarrier system call succeeds (its raw return
value is non-negative), `flushAllThreads` returns that value unmodified,
and the result is non-negative. -/
theorem flushAllThreads_success_passthrough
    (o : SyscallOutcome) (hret : 0 ≤ o.ret) :
    flushAllThreads o = o.ret ∧ 0 ≤ flushAllThreads o := by
  have hne : o.ret ≠ -1 := by omega
  simp [flushAllThreads, hne, hret]

/-- Witness for C2 at the concrete outcome `ret = 0`, `errno = 0`: the
result is the syscall value `0`, unmodified and non-negative. -/
theorem flushAllThreads_success_passthrough_witness :
    flushAllThreads ⟨0, 0⟩ = (0 : Int) ∧ 0 ≤ flushAllThreads ⟨0, 0⟩ :=
  flushAllThreads_success_passthrough ⟨0, 0⟩ (by decide)

/-- C3: for every possible outcome of the underlying system call (any
return value paired with any errno), the function is total and leaves by a
normal `return` carrying an integer: it never raises an exception and
never aborts the process, and the returned integer is exactly
`flushAllThreads` of the outcome. -/
theorem flushAllThreads_total_never_throws (o : SyscallOutcome) :
    flushAllThreadsBeh o = CBehavior.ret (flushAllThreads o) ∧
    ∃ v : Int, flushAllThreadsBeh o = CBehavior.ret v := by
  unfold flushAllThreadsBeh flushAllThreads
  by_cases h : o.ret = -1 <;> simp [h]

/-- C4: every call of the function issues the membarrier system call
exactly once, with command `MEMBARRIER_CMD_SHARED` and flags `0`, whatever
outcome the kernel produces; the trace contains exactly that one call. -/
theorem flushAllThreadsTraced_single_shared_call
    (kernel : Int → Int → SyscallOutcome) :
    (flushAllThreadsTraced kernel).2 =
      [SyscallCall.mk MEMBARRIER_CMD_SHARED 0] ∧
    (flushAllThreadsTraced kernel).2.length = 1 ∧
    (flushAllThreadsTraced kernel).1 =
      flushAllThreads (kernel MEMBARRIER_CMD_SHARED 0) := by
  refine ⟨rfl, rfl, rfl⟩

/-- C5: the component is stateless across sequential calls: in any
sequence of calls, the result of each call is `flushAllThreads` of that
call's own syscall outcome, unaffected by the calls before or after it. -/
theorem runCalls_stateless
    (pre post : List SyscallOutcome) (o : SyscallOutcome) :
    runCalls (pre ++ o :: post) =
      runCalls pre ++ flushAllThreads o :: runCalls post := by
  simp [runCalls]

/-- C6: the error path is taken exactly when the raw syscall return value
is `-1`: in that case the function returns `-errno`; for every other
return value — including hypothetical negative values different from `-1`
— the function returns the syscall's value unchanged, without consulting
`errno`. -/
theorem flushAllThreads_error_path_iff_ret_neg_one (o : SyscallOutcome) :
    (o.ret = -1 ∧ flushAllThreads o = -o.errno) ∨
    (o.ret ≠ -1 ∧ flushAllThreads o = o.ret) := by
  by_cases h : o.ret = -1
  · exact Or.inl ⟨h, by simp [flushAllThreads, h]⟩
  · exact Or.inr ⟨h, by simp [flushAllThreads, h]⟩

/-- C7: if the system call returns `-1` while `errno` is `0`, the function
returns `0`, indistinguishable from a successful call; the guarantee that
failure yields a strictly negative result therefore needs the precondition
that `errno` is at least `1` whenever the syscall returns `-1`. -/
theorem flushAllThreads_errno_zero_masks_failure :
    flushAllThreads ⟨-1, 0⟩ = 0 ∧
    flushAllThreads ⟨-1, 0⟩ = flushAllThreads ⟨0, 0⟩ ∧
    ∀ o : SyscallOutcome, o.ret = -1 → 1 ≤ o.errno →
      flushAllThreads o < 0 := by
  refine ⟨by decide, by decide, ?_⟩
  intro o hret herr
  simp [flushAllThreads, hret]
  omega

/-- Witness for C7: the universally quantified part applied at the
concrete failing outcome `ret = -1`, `errno = 1` yields a strictly
negative result. -/
theorem flushAllThreads_errno_zero_masks_failure_witness :
    flushAllThreads ⟨-1, 1⟩ < 0 :=
  flushAllThreads_errno_zero_masks_failure.2.2 ⟨-1, 1⟩ rfl (by decide)

/-- C8: for every errno value `e` with `1 ≤ e ≤ 2^31 - 1`, the failure
return value is the exact arithmetic negation `-e`, and `-e` lies within
the 32-bit signed integer range, so the negation never overflows. -/
theorem flushAllThreads_negation_no_overflow
    (e : Int) (h1 : 1 ≤ e) (h2 : e ≤ 2 ^ 31 - 1) :
    flushAllThreads ⟨-1, e⟩ = -e ∧
    int32Min ≤ -e ∧ -e ≤ int32Max := by
  refine ⟨by simp [flushAllThreads], ?_, ?_⟩ <;>
    simp only [int32Min, int32Max] <;> omega

/-- Witness for C8 at the largest admissible errno `e = 2^31 - 1`: the
result is its exact negation and is representable in 32 bits. -/
theorem flushAllThreads_negation_no_overflow_witness :
    flushAllThreads ⟨-1, 2 ^ 31 - 1⟩ = -(2 ^ 31 - 1 : Int) ∧
    int32Min ≤ -(2 ^ 31 - 1 : Int) ∧ -(2 ^ 31 - 1 : Int) ≤ int32Max :=
  flushAllThreads_negation_no_overflow (2 ^ 31 - 1) (by decide) (by decide)

/-- C9: the boundary function depends on nothing but the implicit call
context (modelled by the syscall outcome; it takes no explicit arguments),
and its result always fits the declared return type `jint`, a 32-bit
signed integer, whenever the outcome is well formed at the C boundary. -/
theorem flushAllThreads_returns_int32
    (o : SyscallOutcome) (h : o.wf) :
    int32Min ≤ flushAllThreads o ∧ flushAllThreads o ≤ int32Max := by
  obtain ⟨h1, h2, h3, h4⟩ := h
  unfold flushAllThreads
  simp only [int32Min, int32Max] at *
  by_cases hr : o.ret = -1 <;> simp [hr] <;> omega

/-- Witness for C9 at the concrete well-formed outcome `ret = -1`,
`errno = 38`: the result lies in 32-bit signed range. -/
theorem flushAllThreads_returns_int32_witness :
    int32Min ≤ flushAllThreads ⟨-1, 38⟩ ∧
    flushAllThreads ⟨-1, 38⟩ ≤ int32Max :=
  flushAllThreads_returns_int32 ⟨-1, 38⟩ (by decide)

end MemBarrier
